import Mathlib

/-!
Shallow embedding of `src/scripts/convert_kimi_tokenizer.py`.

The script is glue code over external tokenizer libraries.  Every external
call the script makes (reading the model file, `load_tiktoken_bpe`,
`tiktoken.get_encoding`, `convert_tiktoken_to_fast`,
`AutoTokenizer.from_pretrained`) is modelled as a field of an environment
structure `Env`: a function returning `Except String α`, where `.error e`
stands for a raised Python exception carrying message text `e`.  `print`
calls are modelled by accumulating a list of log lines, so each embedded
function returns its log together with its result.
-/

namespace SpecForge

/-- Raw token bytes, as a list of byte values. -/
abbrev Bytes := List Nat

/-- A BPE merge-rank table: (token bytes, rank) pairs, in table order. -/
abbrev RankTable := List (Bytes × Nat)

/-- Embedding of a `tiktoken.Encoding` object: the four constructor
arguments used at lines 53-58 of the script (`name`, `pat_str`,
`mergeable_ranks`, `special_tokens`). -/
structure Encoding where
  name : String
  pat_str : String
  mergeable_ranks : RankTable
  special_tokens : List (String × Nat)
deriving DecidableEq

/-- Embedding of a loaded HuggingFace tokenizer object: the script only
inspects its `is_fast` flag (line 74). -/
structure FastTokenizer where
  is_fast : Bool
deriving DecidableEq

/-- The external world as seen by the script: each field models one
library call or I/O operation, with `.error` standing for a raised
exception. -/
structure Env where
  readFile : String → Except String Bytes
  load_tiktoken_bpe : String → Except String RankTable
  get_encoding : String → Except String Encoding
  convert_tiktoken_to_fast : Encoding → String → Except String Unit
  from_pretrained : String → Except String FastTokenizer

/-- Kimi's special tokens: the literal 17-entry dict at lines 32-50. -/
def special_tokens : List (String × Nat) :=
  [("[BOS]", 163584),
   ("[EOS]", 163585),
   ("<|im_end|>", 163586),
   ("<|im_user|>", 163587),
   ("<|im_assistant|>", 163588),
   ("<|start_header_id|>", 163590),
   ("<|end_header_id|>", 163591),
   ("[EOT]", 163593),
   ("<|im_system|>", 163594),
   ("<|tool_calls_section_begin|>", 163595),
   ("<|tool_calls_section_end|>", 163596),
   ("<|tool_call_begin|>", 163597),
   ("<|tool_call_argument_begin|>", 163598),
   ("<|tool_call_end|>", 163599),
   ("<|im_middle|>", 163601),
   ("[UNK]", 163838),
   ("[PAD]", 163839)]

/-- The literal split pattern passed as `pat_str` at line 55 (the Python
source writes it as a raw string, so each backslash is literal). -/
def pat_str : String :=
  "'(?:[sdmt]|ll|ve|re)|[^\\r\\n\\p{L}\\p{N}]?[\\p{L}]+|\\p{N}{1,3}| ?[^\\s\\p{L}\\p{N}]+[\\r\\n]*|\\s*[\\r\\n]+|\\s+(?!\\S)|\\s+"

/-- The `try` block of `load_kimi_encoding` (lines 17-23): open and read
the model file, then load the BPE ranks from the same path; the first
exception aborts the block. -/
def try_load_ranks (env : Env) (model_path : String) : Except String RankTable :=
  match env.readFile model_path with
  | .error e => .error e
  | .ok _data => env.load_tiktoken_bpe model_path

/-- Embedding of `load_kimi_encoding` (lines 6-58).  Returns the printed
log lines together with either the built `Encoding` or the uncaught
exception (which can only come from `get_encoding`, line 28). -/
def load_kimi_encoding (env : Env) (model_path base_encoding_name : String) :
    List String × Except String Encoding :=
  match try_load_ranks env model_path with
  | .ok mergeable_ranks =>
      ([], .ok ⟨"kimi_k2", pat_str, mergeable_ranks, special_tokens⟩)
  | .error e =>
      let msg := "Failed to load " ++ model_path ++ " directly: " ++ e ++
        ". Using base encoding " ++ base_encoding_name ++ "..."
      match env.get_encoding base_encoding_name with
      | .ok base_encoding =>
          ([msg], .ok ⟨"kimi_k2", pat_str, base_encoding.mergeable_ranks, special_tokens⟩)
      | .error e2 => ([msg], .error e2)

/-- Embedding of `convert_to_fast_tokenizer` (lines 60-75): build and
save the fast tokenizer, then re-load it and report whether it is fast;
either external call may raise. -/
def convert_to_fast_tokenizer (env : Env) (encoding : Encoding) (output_dir : String) :
    List String × Except String FastTokenizer :=
  match env.convert_tiktoken_to_fast encoding output_dir with
  | .error e => ([], .error e)
  | .ok _ =>
      let log1 := ["Conversion completed! Fast tokenizer saved to " ++ output_dir]
      match env.from_pretrained output_dir with
      | .error e => (log1, .error e)
      | .ok fast_tokenizer =>
          (log1 ++ ["Verification: Fast tokenizer is " ++
            (if fast_tokenizer.is_fast then "valid" else "invalid")],
           .ok fast_tokenizer)

/-- Embedding of `main` (lines 77-101): run the pipeline, catch any
exception, log it and return `none` instead of propagating. -/
def main (env : Env) (model_path output_dir base_encoding_name : String) :
    List String × Option FastTokenizer :=
  match load_kimi_encoding env model_path base_encoding_name with
  | (log, .error e) => (log ++ ["Conversion failed: " ++ e], none)
  | (log, .ok encoding) =>
      let log := log ++
        ["Successfully created encoding object: " ++ encoding.name,
         "Number of special tokens: " ++ toString encoding.special_tokens.length,
         "Number of BPE ranks: " ++ toString encoding.mergeable_ranks.length]
      match convert_to_fast_tokenizer env encoding output_dir with
      | (log2, .error e) => (log ++ log2 ++ ["Conversion failed: " ++ e], none)
      | (log2, .ok fast_tokenizer) => (log ++ log2, some fast_tokenizer)

/-- `load_kimi_encoding` with the dead read step (lines 19-20) removed:
the `try` block is only the `load_tiktoken_bpe` call.  Used to state the
spec's claim that the read is behaviorally a no-op. -/
def load_kimi_encoding_noread (env : Env) (model_path base_encoding_name : String) :
    List String × Except String Encoding :=
  match env.load_tiktoken_bpe model_path with
  | .ok mergeable_ranks =>
      ([], .ok ⟨"kimi_k2", pat_str, mergeable_ranks, special_tokens⟩)
  | .error e =>
      let msg := "Failed to load " ++ model_path ++ " directly: " ++ e ++
        ". Using base encoding " ++ base_encoding_name ++ "..."
      match env.get_encoding base_encoding_name with
      | .ok base_encoding =>
          ([msg], .ok ⟨"kimi_k2", pat_str, base_encoding.mergeable_ranks, special_tokens⟩)
      | .error e2 => ([msg], .error e2)

/-- A concrete built-in encoding standing for `cl100k_base`, used by the
witness environments. -/
def cl100k_base : Encoding :=
  ⟨"cl100k_base", "", [([97], 0), ([98], 1), ([97, 98], 2)], []⟩

/-- Witness environment: everything succeeds, the loaded tokenizer is fast. -/
def envGood : Env :=
  ⟨fun _ => .ok [1, 2, 3],
   fun _ => .ok [([107], 0), ([108], 1)],
   fun n => if n = "cl100k_base" then .ok cl100k_base else .error ("Unknown encoding " ++ n),
   fun _ _ => .ok (),
   fun _ => .ok ⟨true⟩⟩

/-- Witness environment: the model file is missing, the fallback resolves. -/
def envMissingFile : Env :=
  ⟨fun p => .error ("No such file or directory: " ++ p),
   fun p => .error ("No such file or directory: " ++ p),
   fun n => if n = "cl100k_base" then .ok cl100k_base else .error ("Unknown encoding " ++ n),
   fun _ _ => .ok (),
   fun _ => .ok ⟨true⟩⟩

/-- Witness environment: everything succeeds but the reloaded tokenizer
is not fast. -/
def envSlow : Env :=
  ⟨fun _ => .ok [1, 2, 3],
   fun _ => .ok [([107], 0), ([108], 1)],
   fun n => if n = "cl100k_base" then .ok cl100k_base else .error ("Unknown encoding " ++ n),
   fun _ _ => .ok (),
   fun _ => .ok ⟨false⟩⟩

/-- Witness environment: the external fast-tokenizer builder raises. -/
def envBuildFails : Env :=
  ⟨fun _ => .ok [1, 2, 3],
   fun _ => .ok [([107], 0), ([108], 1)],
   fun n => if n = "cl100k_base" then .ok cl100k_base else .error ("Unknown encoding " ++ n),
   fun _ _ => .error "convert_tiktoken_to_fast failed",
   fun _ => .ok ⟨true⟩⟩

/-- C1: if the primary parse fails and the fallback name resolves, the
error is not propagated: `load_kimi_encoding` returns a non-null
encoding whose merge-rank table is exactly the fallback encoding's. -/
theorem load_kimi_encoding_fallback (env : Env) (p n e : String) (base : Encoding)
    (h1 : try_load_ranks env p = .error e)
    (h2 : env.get_encoding n = .ok base) :
    (load_kimi_encoding env p n).2 =
      .ok ⟨"kimi_k2", pat_str, base.mergeable_ranks, special_tokens⟩ := by
  simp [load_kimi_encoding, h1, h2]

/-- C1 witness: a missing model file with fallback `cl100k_base`. -/
theorem load_kimi_encoding_fallback_witness :
    (load_kimi_encoding envMissingFile "missing.model" "cl100k_base").2 =
      .ok ⟨"kimi_k2", pat_str, cl100k_base.mergeable_ranks, special_tokens⟩ :=
  load_kimi_encoding_fallback envMissingFile "missing.model" "cl100k_base"
    "No such file or directory: missing.model" cl100k_base rfl rfl

/-- C2: `load_kimi_encoding` is fatal exactly when both the primary parse
and the fallback resolution fail; in that case it propagates the
resolution error (the ResourceResolutionError) and produces no encoding. -/
theorem load_kimi_encoding_fatal_iff (env : Env) (p n : String) :
    (∀ e e2, try_load_ranks env p = .error e → env.get_encoding n = .error e2 →
        (load_kimi_encoding env p n).2 = .error e2) ∧
    (∀ e2, (load_kimi_encoding env p n).2 = .error e2 →
        (∃ e, try_load_ranks env p = .error e) ∧ env.get_encoding n = .error e2) := by
  constructor
  · intro e e2 h1 h2
    simp [load_kimi_encoding, h1, h2]
  · intro e2 h
    unfold load_kimi_encoding at h
    cases htry : try_load_ranks env p with
    | ok r => rw [htry] at h; simp at h
    | error e =>
        rw [htry] at h
        cases hget : env.get_encoding n with
        | ok base => rw [hget] at h; simp at h
        | error e3 =>
            rw [hget] at h
            simp at h
            exact ⟨⟨e, rfl⟩, h ▸ rfl⟩

/-- C3: along every branch, the special-token table of a returned
encoding is exactly the literal 17-entry table of the source. -/
theorem load_kimi_encoding_special_tokens (env : Env) (p n : String) (enc : Encoding)
    (h : (load_kimi_encoding env p n).2 = .ok enc) :
    enc.special_tokens =
      [("[BOS]", 163584),
       ("[EOS]", 163585),
       ("<|im_end|>", 163586),
       ("<|im_user|>", 163587),
       ("<|im_assistant|>", 163588),
       ("<|start_header_id|>", 163590),
       ("<|end_header_id|>", 163591),
       ("[EOT]", 163593),
       ("<|im_system|>", 163594),
       ("<|tool_calls_section_begin|>", 163595),
       ("<|tool_calls_section_end|>", 163596),
       ("<|tool_call_begin|>", 163597),
       ("<|tool_call_argument_begin|>", 163598),
       ("<|tool_call_end|>", 163599),
       ("<|im_middle|>", 163601),
       ("[UNK]", 163838),
       ("[PAD]", 163839)] ∧
    enc.special_tokens.length = 17 := by
  have hst : enc.special_tokens = special_tokens := by
    unfold load_kimi_encoding at h
    cases htry : try_load_ranks env p with
    | ok r => rw [htry] at h; simp at h; rw [← h]
    | error e =>
        rw [htry] at h
        cases hget : env.get_encoding n with
        | ok base => rw [hget] at h; simp at h; rw [← h]
        | error e2 => rw [hget] at h; simp at h
  rw [hst]
  exact ⟨rfl, rfl⟩

/-- C3 witness: the primary branch of the all-good environment. -/
theorem load_kimi_encoding_special_tokens_witness :
    (⟨"kimi_k2", pat_str, [([107], 0), ([108], 1)], special_tokens⟩ :
        Encoding).special_tokens =
      [("[BOS]", 163584),
       ("[EOS]", 163585),
       ("<|im_end|>", 163586),
       ("<|im_user|>", 163587),
       ("<|im_assistant|>", 163588),
       ("<|start_header_id|>", 163590),
       ("<|end_header_id|>", 163591),
       ("[EOT]", 163593),
       ("<|im_system|>", 163594),
       ("<|tool_calls_section_begin|>", 163595),
       ("<|tool_calls_section_end|>", 163596),
       ("<|tool_call_begin|>", 163597),
       ("<|tool_call_argument_begin|>", 163598),
       ("<|tool_call_end|>", 163599),
       ("<|im_middle|>", 163601),
       ("[UNK]", 163838),
       ("[PAD]", 163839)] ∧
    (⟨"kimi_k2", pat_str, [([107], 0), ([108], 1)], special_tokens⟩ :
        Encoding).special_tokens.length = 17 :=
  load_kimi_encoding_special_tokens envGood "tiktoken.model" "cl100k_base"
    ⟨"kimi_k2", pat_str, [([107], 0), ([108], 1)], special_tokens⟩ rfl

/-- C4: the split pattern of any two encodings returned by any two
invocations, on any inputs and along any branch, is the same string,
namely the constant `pat_str`. -/
theorem load_kimi_encoding_pat_str_constant
    (env1 : Env) (p1 n1 : String) (enc1 : Encoding)
    (env2 : Env) (p2 n2 : String) (enc2 : Encoding)
    (h1 : (load_kimi_encoding env1 p1 n1).2 = .ok enc1)
    (h2 : (load_kimi_encoding env2 p2 n2).2 = .ok enc2) :
    enc1.pat_str = enc2.pat_str ∧ enc1.pat_str = pat_str := by
  have key : ∀ (env : Env) (p n : String) (enc : Encoding),
      (load_kimi_encoding env p n).2 = .ok enc → enc.pat_str = pat_str := by
    intro env p n enc h
    unfold load_kimi_encoding at h
    cases htry : try_load_ranks env p with
    | ok r => rw [htry] at h; simp at h; rw [← h]
    | error e =>
        rw [htry] at h
        cases hget : env.get_encoding n with
        | ok base => rw [hget] at h; simp at h; rw [← h]
        | error e2 => rw [hget] at h; simp at h
  have k1 := key env1 p1 n1 enc1 h1
  have k2 := key env2 p2 n2 enc2 h2
  exact ⟨k1.trans k2.symm, k1⟩

/-- C4 witness: one invocation through the primary branch, one through
the fallback branch, with different paths and environments. -/
theorem load_kimi_encoding_pat_str_constant_witness :
    (⟨"kimi_k2", pat_str, [([107], 0), ([108], 1)], special_tokens⟩ :
        Encoding).pat_str =
      (⟨"kimi_k2", pat_str, cl100k_base.mergeable_ranks, special_tokens⟩ :
        Encoding).pat_str ∧
    (⟨"kimi_k2", pat_str, [([107], 0), ([108], 1)], special_tokens⟩ :
        Encoding).pat_str = pat_str :=
  load_kimi_encoding_pat_str_constant
    envGood "tiktoken.model" "cl100k_base"
    ⟨"kimi_k2", pat_str, [([107], 0), ([108], 1)], special_tokens⟩
    envMissingFile "missing.model" "cl100k_base"
    ⟨"kimi_k2", pat_str, cl100k_base.mergeable_ranks, special_tokens⟩
    rfl rfl

/-- C5: when the primary parse succeeds, the parsed rank table is passed
through unchanged into the returned encoding, so the cardinality is
preserved. -/
theorem load_kimi_encoding_primary (env : Env) (p n : String)
    (mergeable_ranks : RankTable)
    (h : try_load_ranks env p = .ok mergeable_ranks) :
    (load_kimi_encoding env p n).2 =
      .ok ⟨"kimi_k2", pat_str, mergeable_ranks, special_tokens⟩ ∧
    (Encoding.mk "kimi_k2" pat_str mergeable_ranks special_tokens).mergeable_ranks.length =
      mergeable_ranks.length := by
  refine ⟨?_, rfl⟩
  simp [load_kimi_encoding, h]

/-- C5 witness: a valid model file with a two-entry rank table. -/
theorem load_kimi_encoding_primary_witness :
    (load_kimi_encoding envGood "tiktoken.model" "cl100k_base").2 =
      .ok ⟨"kimi_k2", pat_str, [([107], 0), ([108], 1)], special_tokens⟩ ∧
    (Encoding.mk "kimi_k2" pat_str [([107], 0), ([108], 1)] special_tokens).mergeable_ranks.length =
      [([107], 0), ([108], 1)].length :=
  load_kimi_encoding_primary envGood "tiktoken.model" "cl100k_base"
    [([107], 0), ([108], 1)] rfl

/-- C6: whatever step fails — building the spec (first conjunct) or the
fast-tokenizer construction / verification loading (second conjunct,
`convert_to_fast_tokenizer` covers both external calls) — `main` catches
the exception, appends a `Conversion failed:` log line carrying its text,
and returns `none` instead of propagating it. -/
theorem main_catches_all_failures (env : Env) (p o n : String) :
    (∀ e, (load_kimi_encoding env p n).2 = .error e →
        main env p o n =
          ((load_kimi_encoding env p n).1 ++ ["Conversion failed: " ++ e], none)) ∧
    (∀ enc e, (load_kimi_encoding env p n).2 = .ok enc →
        (convert_to_fast_tokenizer env enc o).2 = .error e →
        (main env p o n).2 = none ∧
          ("Conversion failed: " ++ e) ∈ (main env p o n).1) := by
  constructor
  · intro e h
    rcases hL : load_kimi_encoding env p n with ⟨log, res⟩
    rw [hL] at h
    simp at h
    subst h
    simp [main, hL]
  · intro enc e h1 h2
    rcases hL : load_kimi_encoding env p n with ⟨log, res⟩
    rw [hL] at h1
    simp at h1
    subst h1
    rcases hC : convert_to_fast_tokenizer env enc o with ⟨log2, res2⟩
    rw [hC] at h2
    simp at h2
    subst h2
    simp [main, hL, hC]

/-- C7: when the artifact persists and re-loads, `convert_to_fast_tokenizer`
returns the loaded tokenizer whatever its `is_fast` flag says; a failed
check only changes the verification log line from valid to invalid, not
the returned result. -/
theorem convert_verification_diagnostic_only (env : Env) (enc : Encoding)
    (o : String) (ft : FastTokenizer)
    (h1 : env.convert_tiktoken_to_fast enc o = .ok ())
    (h2 : env.from_pretrained o = .ok ft) :
    convert_to_fast_tokenizer env enc o =
      (["Conversion completed! Fast tokenizer saved to " ++ o,
        "Verification: Fast tokenizer is " ++
          (if ft.is_fast then "valid" else "invalid")],
       .ok ft) := by
  simp [convert_to_fast_tokenizer, h1, h2]

/-- C7 witness: a re-loaded tokenizer that fails the is-fast check is
still returned, with the invalid diagnostic. -/
theorem convert_verification_diagnostic_only_witness :
    convert_to_fast_tokenizer envSlow
        ⟨"kimi_k2", pat_str, [([107], 0), ([108], 1)], special_tokens⟩ "out" =
      (["Conversion completed! Fast tokenizer saved to " ++ "out",
        "Verification: Fast tokenizer is " ++
          (if (⟨false⟩ : FastTokenizer).is_fast then "valid" else "invalid")],
       .ok ⟨false⟩) :=
  convert_verification_diagnostic_only envSlow
    ⟨"kimi_k2", pat_str, [([107], 0), ([108], 1)], special_tokens⟩ "out"
    ⟨false⟩ rfl rfl

/-- C8: on a failed primary parse with a resolvable fallback, the log of
`load_kimi_encoding` is exactly one message, and that message carries the
model path `p` and the caught error text `e` by construction. -/
theorem load_kimi_encoding_fallback_message (env : Env) (p n e : String)
    (base : Encoding)
    (h1 : try_load_ranks env p = .error e)
    (h2 : env.get_encoding n = .ok base) :
    (load_kimi_encoding env p n).1 =
      ["Failed to load " ++ p ++ " directly: " ++ e ++
        ". Using base encoding " ++ n ++ "..."] := by
  simp [load_kimi_encoding, h1, h2]

/-- C8 witness: the missing-file environment logs the single fallback
message for its path and error. -/
theorem load_kimi_encoding_fallback_message_witness :
    (load_kimi_encoding envMissingFile "missing.model" "cl100k_base").1 =
      ["Failed to load " ++ "missing.model" ++ " directly: " ++
        "No such file or directory: missing.model" ++
        ". Using base encoding " ++ "cl100k_base" ++ "..."] :=
  load_kimi_encoding_fallback_message envMissingFile "missing.model" "cl100k_base"
    "No such file or directory: missing.model" cl100k_base rfl rfl

/-- C9: the file-read step is dead beyond its ability to raise: whenever
the file is readable the program equals the program with the read removed
(first conjunct), and the result never depends on the bytes read — two
environments agreeing on the loader and the fallback resolver but reading
arbitrary different bytes produce identical results (second conjunct). -/
theorem read_step_is_dead :
    (∀ (env : Env) (p n : String) (bs : Bytes), env.readFile p = .ok bs →
        load_kimi_encoding env p n = load_kimi_encoding_noread env p n) ∧
    (∀ (env1 env2 : Env) (p n : String) (bs1 bs2 : Bytes),
        env1.load_tiktoken_bpe = env2.load_tiktoken_bpe →
        env1.get_encoding = env2.get_encoding →
        env1.readFile p = .ok bs1 → env2.readFile p = .ok bs2 →
        load_kimi_encoding env1 p n = load_kimi_encoding env2 p n) := by
  have key : ∀ (env : Env) (p n : String) (bs : Bytes), env.readFile p = .ok bs →
      load_kimi_encoding env p n = load_kimi_encoding_noread env p n := by
    intro env p n bs h
    simp [load_kimi_encoding, load_kimi_encoding_noread, try_load_ranks, h]
  refine ⟨key, ?_⟩
  intro env1 env2 p n bs1 bs2 hl hg h1 h2
  rw [key env1 p n bs1 h1, key env2 p n bs2 h2]
  unfold load_kimi_encoding_noread
  rw [hl, hg]

/-- C10: when all four steps succeed, `main` returns exactly the tokenizer
object re-loaded by `from_pretrained` — not the encoding and not a flag —
for any value of its `is_fast` field. -/
theorem main_returns_loaded_tokenizer (env : Env) (p o n : String)
    (enc : Encoding) (ft : FastTokenizer)
    (h1 : (load_kimi_encoding env p n).2 = .ok enc)
    (h2 : env.convert_tiktoken_to_fast enc o = .ok ())
    (h3 : env.from_pretrained o = .ok ft) :
    (main env p o n).2 = some ft := by
  rcases hL : load_kimi_encoding env p n with ⟨log, res⟩
  rw [hL] at h1
  simp at h1
  subst h1
  simp [main, hL, convert_to_fast_tokenizer, h2, h3]

/-- C10 witness: a successful run whose re-loaded tokenizer is not fast
is still the value returned by `main`. -/
theorem main_returns_loaded_tokenizer_witness :
    (main envSlow "tiktoken.model" "out" "cl100k_base").2 =
      some ⟨false⟩ :=
  main_returns_loaded_tokenizer envSlow "tiktoken.model" "out" "cl100k_base"
    ⟨"kimi_k2", pat_str, [([107], 0), ([108], 1)], special_tokens⟩
    ⟨false⟩ rfl rfl rfl

end SpecForge
